/-
Verification of the scorescan processing pipeline.

This file gives a shallow embedding of the backend pipeline code:
  * `update_job_status` and `process_score_task`
    (backend/app/tasks/process_score.py),
  * `OMRService.process_image` and its output-discovery probe
    (backend/app/services/omr.py),
  * `ImagePreprocessor._order_points`, `_deskew`, `_ensure_resolution`
    (backend/app/services/image_preprocessing.py),
  * the job creation validation and the download endpoints
    (backend/app/routers/jobs.py),
and proves properties of the embedded definitions.

Modelling conventions:
  * Python `Optional[str]` becomes `Option String`; Python truthiness of an
    optional string (`if s:`) is `s ≠ ""` on a present value.
  * The database job row becomes the structure `JobRecord`; each
    `update_job_status` call site becomes an `UpdateArgs` value, and the
    sequence of calls of one run becomes a `List UpdateArgs`.
  * External effects (the preprocessing outcome, the Audiveris subprocess,
    the resulting output-directory listing, the archive extraction and
    the downstream transposition / PDF stage outcomes) are inputs of the
    run, collected in environment structures; the control flow that the
    Python code performs on those outcomes is embedded faithfully.
  * Real-valued arithmetic in `_ensure_resolution` is embedded over ℚ,
    with Python `int()` on the (nonnegative) quantities as `Int.floor`.
-/
import Mathlib

namespace ScoreScan

/-- Job status enumeration (`JobStatus` in backend/app/models/job.py). -/
inductive JobStatus where
  | pending
  | processing
  | completed
  | failed
deriving DecidableEq, Repr

/-- Python truthiness of an `Optional[str]`: present and nonempty. -/
def truthyStr : Option String → Bool
  | none => false
  | some s => s ≠ ""

/-- Python truthiness of an `Optional[int]`: present and nonzero. -/
def truthyInt : Option Int → Bool
  | none => false
  | some n => n ≠ 0

/-- Python `str(x)` applied to an `Optional[str]` inside an f-string:
`None` renders as the string "None". -/
def pystr : Option String → String
  | none => "None"
  | some s => s

/-- The persisted fields of a job row that `update_job_status` touches
(`Job` in backend/app/models/job.py).  `completed_at` is modelled as a
flag recording whether the timestamp has been set. -/
structure JobRecord where
  status : JobStatus
  progress : Nat
  error_message : Option String
  musicxml_path : Option String
  pdf_path : Option String
  completed_at : Bool
deriving DecidableEq, Repr

/-- A job row as freshly created by `create_job`
(status `pending`, progress 0, no paths, no error). -/
def initialJob : JobRecord :=
  { status := JobStatus.pending
    progress := 0
    error_message := none
    musicxml_path := none
    pdf_path := none
    completed_at := false }

/-- The arguments of one `update_job_status` call
(backend/app/tasks/process_score.py, lines 15–22).  Defaults mirror the
Python signature: `progress: int = 0`, the rest `None`. -/
structure UpdateArgs where
  status : JobStatus
  progress : Nat := 0
  error_message : Option String := none
  musicxml_path : Option String := none
  pdf_path : Option String := none
deriving DecidableEq, Repr

/-- Embedding of `update_job_status` (backend/app/tasks/process_score.py, lines 15–40)
applied to a job row: status and progress are assigned unconditionally;
error message and artifact paths only when the argument is truthy;
`completed_at` is set on a transition into a terminal status. -/
def update_job_status (j : JobRecord) (u : UpdateArgs) : JobRecord :=
  { status := u.status
    progress := u.progress
    error_message :=
      if truthyStr u.error_message then u.error_message else j.error_message
    musicxml_path :=
      if truthyStr u.musicxml_path then u.musicxml_path else j.musicxml_path
    pdf_path :=
      if truthyStr u.pdf_path then u.pdf_path else j.pdf_path
    completed_at :=
      if u.status = JobStatus.completed ∨ u.status = JobStatus.failed then
        true
      else j.completed_at }

/-- Apply a sequence of `update_job_status` calls to a job row. -/
def applyUpdates (j : JobRecord) (us : List UpdateArgs) : JobRecord :=
  us.foldl update_job_status j

/-- The ordered candidate output filenames Audiveris may have produced for
a given input stem (`possible_outputs` in backend/app/services/omr.py,
lines 164–168). -/
def possible_outputs (stem : String) : List (String × String) :=
  [ (stem ++ ".mxl", ".mxl")
  , (stem ++ ".musicxml", ".musicxml")
  , (stem ++ ".xml", ".xml") ]

/-- The fallback directory scan (backend/app/services/omr.py, lines
179–192): the first file in listing order bearing an accepted extension
(`.mxl`, `.musicxml`, or `.xml` not named like the container metadata). -/
def fallback_scan : List String → Option (String × String)
  | [] => none
  | f :: rest =>
    if f.endsWith ".mxl" then some (f, ".mxl")
    else if f.endsWith ".musicxml" then some (f, ".musicxml")
    else if f.endsWith ".xml" ∧ ¬ f.startsWith "container" then
      some (f, ".xml")
    else fallback_scan rest

/-- The full output-discovery probe of `OMRService.process_image`
(backend/app/services/omr.py, lines 163–192): try the ordered candidate
extensions derived from the input stem against the directory contents,
then fall back to scanning the directory listing. -/
def discover_output (stem : String) (listing : List String) :
    Option (String × String) :=
  match (possible_outputs stem).find? (fun pe => listing.contains pe.1) with
  | some pe => some pe
  | none => fallback_scan listing

/-- Embedding of `get_musicxml_path_with_ext` (backend/app/services/omr.py, lines
17–21): the relative output path for a job with a given extension. -/
def get_musicxml_path_with_ext (user_id job_id ext : String) : String :=
  "musicxml/" ++ user_id ++ "/" ++ job_id ++ ext

/-- The exceptions the Audiveris subprocess invocation can raise inside
`OMRService.process_image` (caught at lines 237–248 of
backend/app/services/omr.py). -/
inductive AudiverisExc where
  | timeoutExpired
  | fileNotFound (msg : String)
  | other (msg : String)
deriving DecidableEq, Repr

/-- The external-world outcomes one `OMRService.process_image` call
observes: whether preprocessing is enabled and how `preprocess_for_omr`
fared, how the Audiveris subprocess behaved, the resulting output
directory listing, and whether MXL archive extraction succeeds.  The
preprocessed scratch file exists exactly when preprocessing ran and
succeeded (`preprocess_for_omr` only writes its output on success). -/
structure OmrEnv where
  input_stem : String
  audiveris_path : String
  enable_preprocessing : Bool
  preprocess_ok : Bool
  preprocess_error : Option String
  audiveris_exc : Option AudiverisExc
  returncode : Int
  stderr : String
  listing : List String
  extract_ok : Bool
deriving DecidableEq, Repr

/-- The result of `OMRService.process_image`: the `(success, output_path,
error_message)` triple it returns, plus whether the preprocessed scratch
file still exists when the call returns (for the cleanup property). -/
structure OmrOutcome where
  success : Bool
  output_path : Option String
  error : Option String
  scratch_remains : Bool
deriving DecidableEq, Repr

/-- Whether the preprocessed scratch file was created: preprocessing is
enabled and `preprocess_for_omr` returned success (on failure the code
falls back to the original image, omr.py lines 110–130). -/
def scratch_created (env : OmrEnv) : Bool :=
  env.enable_preprocessing && env.preprocess_ok

/-- The stem of the image actually fed to Audiveris: the preprocessed
scratch file when it was produced, otherwise the original input
(omr.py lines 111–130, 163). -/
def processed_stem (env : OmrEnv) : String :=
  if scratch_created env then env.input_stem ++ "_preprocessed"
  else env.input_stem

/-- Embedding of `OMRService.process_image` (backend/app/services/omr.py, lines
85–248): preprocess (falling back to the original image on failure), run
Audiveris, discover the output file by extension probing then directory
scan, normalize a compressed `.mxl` result to `.musicxml` (falling back
to moving the archive if extraction fails), clean up the scratch file,
and return `(success, output_path, error_message)`.  The exception
handlers at the bottom of the Python function translate subprocess
failures into error returns; none of them removes the scratch file. -/
def process_image (user_id job_id : String) (env : OmrEnv) : OmrOutcome :=
  match env.audiveris_exc with
  | some AudiverisExc.timeoutExpired =>
    { success := false
      output_path := none
      error := some "OMR processing timed out (exceeded 5 minutes)"
      scratch_remains := scratch_created env }
  | some (AudiverisExc.fileNotFound msg) =>
    { success := false
      output_path := none
      error := some ("Audiveris not found at " ++ env.audiveris_path
        ++ ": " ++ msg)
      scratch_remains := scratch_created env }
  | some (AudiverisExc.other msg) =>
    { success := false
      output_path := none
      error := some ("OMR processing error: " ++ msg)
      scratch_remains := scratch_created env }
  | none =>
    match discover_output (processed_stem env) env.listing with
    | none =>
      { success := false
        output_path := none
        error := some ("No MusicXML output file found. Audiveris return code: "
          ++ toString env.returncode
          ++ (if env.stderr ≠ "" then
                "\nStderr: " ++ (env.stderr.take 500)
              else ""))
        scratch_remains := scratch_created env }
    | some (_, ext) =>
      let final_rel :=
        if ext = ".mxl" then
          if env.extract_ok then
            get_musicxml_path_with_ext user_id job_id ".musicxml"
          else
            get_musicxml_path_with_ext user_id job_id ".mxl"
        else
          get_musicxml_path_with_ext user_id job_id ".musicxml"
      { success := true
        output_path := some final_rel
        error := none
        scratch_remains := false }

/-- The transposition parameters of a job, as handed to
`process_score_task` (all optional in the Python signature). -/
structure TaskParams where
  transpose_semitones : Option Int
  transpose_from_key : Option String
  transpose_to_key : Option String
deriving DecidableEq, Repr

/-- The external-stage outcomes one `process_score_task` run observes:
the OMR environment plus the results of the transposition service call
(whichever variant is selected) and of the PDF conversion. -/
structure StageEnv where
  omr : OmrEnv
  transpose_ok : Bool
  transpose_error : Option String
  pdf_ok : Bool
  pdf_out : Option String
  pdf_error : Option String
deriving DecidableEq, Repr

/-- Everything one `process_score_task` run produced: the ordered list of
`update_job_status` calls it made, which transposition variant (if any)
and whether the PDF stage were invoked, the OMR outcome, and the job row
after all updates are applied to a freshly created job. -/
structure RunResult where
  trace : List UpdateArgs
  semitone_called : Bool
  key_called : Bool
  pdf_called : Bool
  omr_outcome : OmrOutcome
  final : JobRecord
deriving DecidableEq, Repr

/-- Whether `process_score_task` enters the transposition block
(line 98 of backend/app/tasks/process_score.py):
`if transpose_semitones or (transpose_from_key and transpose_to_key):`
under Python truthiness (a present offset of 0 is falsy). -/
def transpose_requested (p : TaskParams) : Bool :=
  truthyInt p.transpose_semitones ||
    (truthyStr p.transpose_from_key && truthyStr p.transpose_to_key)

/-- Embedding of `process_score_task` (backend/app/tasks/process_score.py, lines
43–158): set the job to processing, run OMR, fail with a
"Score recognition failed:" message if it fails (the failure update
leaves `progress` at its Python default of 0), record the MusicXML path
at progress 50, run the selected transposition variant if requested,
then render to PDF, completing at progress 100. -/
def process_score_task (user_id job_id : String) (p : TaskParams)
    (env : StageEnv) : RunResult :=
  let o := process_image user_id job_id env.omr
  let t0 : List UpdateArgs :=
    [ { status := JobStatus.processing, progress := 0 }
    , { status := JobStatus.processing, progress := 10 } ]
  if o.success = false then
    let tr := t0 ++
      [ { status := JobStatus.failed
          error_message := some ("Score recognition failed: " ++ pystr o.error) } ]
    { trace := tr
      semitone_called := false
      key_called := false
      pdf_called := false
      omr_outcome := o
      final := applyUpdates initialJob tr }
  else
    let t1 := t0 ++
      [ { status := JobStatus.processing, progress := 50
          musicxml_path := o.output_path } ]
    if transpose_requested p then
      let t2 := t1 ++ [ { status := JobStatus.processing, progress := 55 } ]
      let sem := truthyInt p.transpose_semitones
      if env.transpose_ok = false then
        let tr := t2 ++
          [ { status := JobStatus.failed
              error_message :=
                some ("Transposition failed: " ++ pystr env.transpose_error) } ]
        { trace := tr
          semitone_called := sem
          key_called := !sem
          pdf_called := false
          omr_outcome := o
          final := applyUpdates initialJob tr }
      else
        let t3 := t2 ++
          [ { status := JobStatus.processing, progress := 70 }
          , { status := JobStatus.processing, progress := 75 } ]
        if env.pdf_ok = false then
          let tr := t3 ++
            [ { status := JobStatus.failed
                error_message :=
                  some ("PDF conversion failed: " ++ pystr env.pdf_error) } ]
          { trace := tr
            semitone_called := sem
            key_called := !sem
            pdf_called := true
            omr_outcome := o
            final := applyUpdates initialJob tr }
        else
          let tr := t3 ++
            [ { status := JobStatus.completed, progress := 100
                pdf_path := env.pdf_out } ]
          { trace := tr
            semitone_called := sem
            key_called := !sem
            pdf_called := true
            omr_outcome := o
            final := applyUpdates initialJob tr }
    else
      let t3 := t1 ++
        [ { status := JobStatus.processing, progress := 70 }
        , { status := JobStatus.processing, progress := 75 } ]
      if env.pdf_ok = false then
        let tr := t3 ++
          [ { status := JobStatus.failed
              error_message :=
                some ("PDF conversion failed: " ++ pystr env.pdf_error) } ]
        { trace := tr
          semitone_called := false
          key_called := false
          pdf_called := true
          omr_outcome := o
          final := applyUpdates initialJob tr }
      else
        let tr := t3 ++
          [ { status := JobStatus.completed, progress := 100
              pdf_path := env.pdf_out } ]
        { trace := tr
          semitone_called := false
          key_called := false
          pdf_called := true
          omr_outcome := o
          final := applyUpdates initialJob tr }

/-- The availability flags of `job_to_response`
(backend/app/routers/jobs.py, lines 27–42): `has_pdf` and `has_musicxml`
are presence of the respective path (`is not None`). -/
structure JobResponseBits where
  status : JobStatus
  progress : Nat
  error_message : Option String
  has_pdf : Bool
  has_musicxml : Bool
deriving DecidableEq, Repr

/-- Embedding of `job_to_response`, restricted to the availability-relevant fields. -/
def job_to_response (j : JobRecord) : JobResponseBits :=
  { status := j.status
    progress := j.progress
    error_message := j.error_message
    has_pdf := j.pdf_path.isSome
    has_musicxml := j.musicxml_path.isSome }

/-- Outcome of a download endpoint: the file served, or an HTTP rejection
with status code and detail. -/
inductive DownloadResult where
  | served (path : String)
  | rejected (httpStatus : Nat) (detail : String)
deriving DecidableEq, Repr

/-- Embedding of `download_pdf` (backend/app/routers/jobs.py, lines 194–231) for a
found job: reject non-completed jobs, then missing path, then a path
whose file does not exist; otherwise serve the file.  `exists_file`
stands for `os.path.exists`. -/
def download_pdf (exists_file : String → Bool) (j : JobRecord) :
    DownloadResult :=
  if j.status ≠ JobStatus.completed then
    DownloadResult.rejected 400 "Job is not completed"
  else if ¬ truthyStr j.pdf_path then
    DownloadResult.rejected 404 "PDF not available"
  else if ¬ exists_file (j.pdf_path.getD "") then
    DownloadResult.rejected 404 "PDF file not found"
  else
    DownloadResult.served (j.pdf_path.getD "")

/-- Embedding of `download_musicxml` (backend/app/routers/jobs.py, lines 234–268) for
a found job: unlike `download_pdf`, the handler performs no job-status
check — it rejects only a missing path or a missing file. -/
def download_musicxml (exists_file : String → Bool) (j : JobRecord) :
    DownloadResult :=
  if ¬ truthyStr j.musicxml_path then
    DownloadResult.rejected 404 "MusicXML not available"
  else if ¬ exists_file (j.musicxml_path.getD "") then
    DownloadResult.rejected 404 "MusicXML file not found"
  else
    DownloadResult.served (j.musicxml_path.getD "")

/-- The transposition-option validation of `create_job`
(backend/app/routers/jobs.py, lines 85–99): a present semitone offset
must lie in [-12, 12], and the two key fields must be both present or
both absent (under Python truthiness). -/
def create_job_accepts (ts : Option Int) (fk tk : Option String) : Bool :=
  (match ts with
   | some n => decide (-12 ≤ n ∧ n ≤ 12)
   | none => true) &&
  !((truthyStr fk && !truthyStr tk) || (truthyStr tk && !truthyStr fk))

/-- First element of minimal `f`-value in `x :: l` (the element at
`np.argmin`, which returns the first index attaining the minimum). -/
def selectMinBy {α : Type} (f : α → Int) (x : α) : List α → α
  | [] => x
  | y :: ys => if f y < f x then selectMinBy f y ys else selectMinBy f x ys

/-- First element of maximal `f`-value in `x :: l` (the element at
`np.argmax`, which returns the first index attaining the maximum). -/
def selectMaxBy {α : Type} (f : α → Int) (x : α) : List α → α
  | [] => x
  | y :: ys => if f x < f y then selectMaxBy f y ys else selectMaxBy f x ys

/-- The four corners as assigned into `rect[0..3]` by `_order_points`. -/
structure OrderedRect where
  tl : Int × Int
  tr : Int × Int
  br : Int × Int
  bl : Int × Int
deriving DecidableEq, Repr

/-- Embedding of `ImagePreprocessor._order_points`
(backend/app/services/image_preprocessing.py, lines 308–329) on four
contour points: `rect[0]` (top-left) and `rect[2]` (bottom-right) come
from `np.argmin`/`np.argmax` of the coordinate sums; `rect[1]`
(top-right) and `rect[3]` (bottom-left) from `np.argmin`/`np.argmax` of
`np.diff(points, axis=1)`, which is `y - x` for a point `(x, y)`. -/
def order_points (p0 p1 p2 p3 : Int × Int) : OrderedRect :=
  { tl := selectMinBy (fun p => p.1 + p.2) p0 [p1, p2, p3]
    br := selectMaxBy (fun p => p.1 + p.2) p0 [p1, p2, p3]
    tr := selectMinBy (fun p => p.2 - p.1) p0 [p1, p2, p3]
    bl := selectMaxBy (fun p => p.2 - p.1) p0 [p1, p2, p3] }

/-- Insert a value into an ascending list, keeping it ascending. -/
def insertAsc (a : ℚ) : List ℚ → List ℚ
  | [] => [a]
  | b :: bs => if a ≤ b then a :: b :: bs else b :: insertAsc a bs

/-- Ascending insertion sort (used to realize the sort inside
`np.median`; any correct ascending sort yields the same sorted
sequence, hence the same median). -/
def sortAsc : List ℚ → List ℚ
  | [] => []
  | a :: as => insertAsc a (sortAsc as)

/-- Embedding of `np.median` on a nonempty list: sort ascending; middle element for
odd length, mean of the two middle elements for even length. -/
def npMedian (l : List ℚ) : ℚ :=
  let s := sortAsc l
  let n := s.length
  if n % 2 = 1 then s.getD (n / 2) 0
  else (s.getD (n / 2 - 1) 0 + s.getD (n / 2) 0) / 2

/-- Embedding of `ImagePreprocessor._deskew`
(backend/app/services/image_preprocessing.py, lines 159–228), with the
Hough-detected line angles (already converted to degrees, i.e.
`np.degrees(theta)`) supplied as input and the rotation
(`cv2.getRotationMatrix2D` + `cv2.warpAffine`) as an abstract function
of the image and the angle: subtract 90° from each theta, keep angles in
(-45°, 45°), return the image unchanged with angle 0 when no line was
detected, no angle survives, or the median magnitude is below 0.5°;
otherwise rotate by the median angle. -/
def deskew {α : Type} (rotate : α → ℚ → α) (image : α)
    (thetas : List ℚ) : α × ℚ :=
  if thetas.isEmpty then (image, 0)
  else
    let angles := (thetas.map (fun t => t - 90)).filter
      (fun a => -45 < a && a < 45)
    if angles.isEmpty then (image, 0)
    else
      let median_angle := npMedian angles
      if |median_angle| < 1 / 2 then (image, 0)
      else (rotate image median_angle, median_angle)

/-- Embedding of `ImagePreprocessor._ensure_resolution`
(backend/app/services/image_preprocessing.py, lines 381–419) on the
pixel dimensions `(width, height)`: estimate the DPI as width / 11.0;
when it is below the target DPI, scale both dimensions by
`target_dpi / current_dpi` (Python `int()` on these nonnegative values
is the floor); otherwise return the dimensions unchanged. -/
def ensure_resolution (target_dpi : ℕ) (w h : ℕ) : ℕ × ℕ :=
  let current_dpi : ℚ := (w : ℚ) / 11
  if current_dpi < target_dpi then
    let scale_factor : ℚ := (target_dpi : ℚ) / current_dpi
    ((⌊(w : ℚ) * scale_factor⌋).toNat, (⌊(h : ℚ) * scale_factor⌋).toNat)
  else (w, h)

section SelectLemmas

variable {α : Type} (f : α → Int)

lemma selectMinBy_mem : ∀ (l : List α) (x : α), selectMinBy f x l ∈ x :: l := by
  intro l
  induction l with
  | nil => intro x; simp [selectMinBy]
  | cons y ys ih =>
    intro x
    simp only [selectMinBy]
    by_cases h : f y < f x
    · rw [if_pos h]
      exact List.mem_cons_of_mem x (ih y)
    · rw [if_neg h]
      rcases List.mem_cons.mp (ih x) with h1 | h1
      · rw [h1]
        exact List.mem_cons_self _ _
      · exact List.mem_cons_of_mem _ (List.mem_cons_of_mem _ h1)

lemma selectMinBy_le :
    ∀ (l : List α) (x q : α), q ∈ x :: l → f (selectMinBy f x l) ≤ f q := by
  intro l
  induction l with
  | nil =>
    intro x q hq
    simp only [List.mem_singleton] at hq
    subst hq
    simp [selectMinBy]
  | cons y ys ih =>
    intro x q hq
    simp only [selectMinBy]
    by_cases h : f y < f x
    · rw [if_pos h]
      rcases List.mem_cons.mp hq with h1 | h1
      · rw [h1]
        exact le_trans (ih y y (List.mem_cons_self _ _)) (le_of_lt h)
      · exact ih y q h1
    · rw [if_neg h]
      rcases List.mem_cons.mp hq with h1 | h1
      · rw [h1]
        exact ih x x (List.mem_cons_self _ _)
      · rcases List.mem_cons.mp h1 with h2 | h2
        · rw [h2]
          exact le_trans (ih x x (List.mem_cons_self _ _)) (not_lt.mp h)
        · exact ih x q (List.mem_cons_of_mem _ h2)

lemma selectMaxBy_mem : ∀ (l : List α) (x : α), selectMaxBy f x l ∈ x :: l := by
  intro l
  induction l with
  | nil => intro x; simp [selectMaxBy]
  | cons y ys ih =>
    intro x
    simp only [selectMaxBy]
    by_cases h : f x < f y
    · rw [if_pos h]
      exact List.mem_cons_of_mem x (ih y)
    · rw [if_neg h]
      rcases List.mem_cons.mp (ih x) with h1 | h1
      · rw [h1]
        exact List.mem_cons_self _ _
      · exact List.mem_cons_of_mem _ (List.mem_cons_of_mem _ h1)

lemma le_selectMaxBy :
    ∀ (l : List α) (x q : α), q ∈ x :: l → f q ≤ f (selectMaxBy f x l) := by
  intro l
  induction l with
  | nil =>
    intro x q hq
    simp only [List.mem_singleton] at hq
    subst hq
    simp [selectMaxBy]
  | cons y ys ih =>
    intro x q hq
    simp only [selectMaxBy]
    by_cases h : f x < f y
    · rw [if_pos h]
      rcases List.mem_cons.mp hq with h1 | h1
      · rw [h1]
        exact le_trans (le_of_lt h) (ih y y (List.mem_cons_self _ _))
      · exact ih y q h1
    · rw [if_neg h]
      rcases List.mem_cons.mp hq with h1 | h1
      · rw [h1]
        exact ih x x (List.mem_cons_self _ _)
      · rcases List.mem_cons.mp h1 with h2 | h2
        · rw [h2]
          exact le_trans (not_lt.mp h) (ih x x (List.mem_cons_self _ _))
        · exact ih x q (List.mem_cons_of_mem _ h2)

end SelectLemmas

/-- C4 (counterexample): on the axis-aligned square with corners (0,0),
(10,0), (10,10), (0,10), `_order_points` assigns top-right := (10,0),
which is NOT a point of minimum (x−y) among the four (the unique such
point is (0,10)); so "top-right = the point with minimum (x−y)" fails
as stated (and symmetrically for bottom-left). -/
theorem order_points_min_diff_claim_false :
    (order_points (0, 0) (10, 0) (10, 10) (0, 10)).tr = (10, 0) ∧
    ¬ (∀ q ∈ [((0 : Int), (0 : Int)), (10, 0), (10, 10), (0, 10)],
        (order_points (0, 0) (10, 0) (10, 10) (0, 10)).tr.1 -
          (order_points (0, 0) (10, 0) (10, 10) (0, 10)).tr.2 ≤ q.1 - q.2) := by
  constructor
  · rfl
  · intro hmin
    have := hmin (0, 10) (by simp)
    simp [order_points, selectMinBy] at this

/-- C4 (amended): `_order_points` assigns top-left = a point of minimum
(x+y), bottom-right = a point of maximum (x+y), top-right = a point of
minimum (y−x), i.e. MAXIMUM (x−y), and bottom-left = a point of maximum
(y−x), i.e. MINIMUM (x−y) (ties resolved by first occurrence, as by
`np.argmin`/`np.argmax`); each assigned corner is one of the four input
points. -/
theorem order_points_extremes (p0 p1 p2 p3 : Int × Int) :
    ((order_points p0 p1 p2 p3).tl ∈ [p0, p1, p2, p3] ∧
      ∀ q ∈ [p0, p1, p2, p3],
        (order_points p0 p1 p2 p3).tl.1 + (order_points p0 p1 p2 p3).tl.2 ≤
          q.1 + q.2) ∧
    ((order_points p0 p1 p2 p3).br ∈ [p0, p1, p2, p3] ∧
      ∀ q ∈ [p0, p1, p2, p3],
        q.1 + q.2 ≤
          (order_points p0 p1 p2 p3).br.1 + (order_points p0 p1 p2 p3).br.2) ∧
    ((order_points p0 p1 p2 p3).tr ∈ [p0, p1, p2, p3] ∧
      ∀ q ∈ [p0, p1, p2, p3],
        q.1 - q.2 ≤
          (order_points p0 p1 p2 p3).tr.1 - (order_points p0 p1 p2 p3).tr.2) ∧
    ((order_points p0 p1 p2 p3).bl ∈ [p0, p1, p2, p3] ∧
      ∀ q ∈ [p0, p1, p2, p3],
        (order_points p0 p1 p2 p3).bl.1 - (order_points p0 p1 p2 p3).bl.2 ≤
          q.1 - q.2) := by
  refine ⟨⟨?_, ?_⟩, ⟨?_, ?_⟩, ⟨?_, ?_⟩, ⟨?_, ?_⟩⟩
  · simp only [order_points]
    exact selectMinBy_mem _ [p1, p2, p3] p0
  · intro q hq
    have := selectMinBy_le (fun p => p.1 + p.2) [p1, p2, p3] p0 q hq
    dsimp only at this
    simp only [order_points]
    omega
  · simp only [order_points]
    exact selectMaxBy_mem _ [p1, p2, p3] p0
  · intro q hq
    have := le_selectMaxBy (fun p => p.1 + p.2) [p1, p2, p3] p0 q hq
    dsimp only at this
    simp only [order_points]
    omega
  · simp only [order_points]
    exact selectMinBy_mem _ [p1, p2, p3] p0
  · intro q hq
    have := selectMinBy_le (fun p => p.2 - p.1) [p1, p2, p3] p0 q hq
    dsimp only at this
    simp only [order_points]
    omega
  · simp only [order_points]
    exact selectMaxBy_mem _ [p1, p2, p3] p0
  · intro q hq
    have := le_selectMaxBy (fun p => p.2 - p.1) [p1, p2, p3] p0 q hq
    dsimp only at this
    simp only [order_points]
    omega

/-- Witness for `order_points_extremes`: instantiated on the square above
at the concrete point (0,0). -/
theorem order_points_extremes_witness :
    ((0 : Int), (0 : Int)) ∈ [((0 : Int), (0 : Int)), (10, 0), (10, 10), (0, 10)] ∧
    (order_points (0, 0) (10, 0) (10, 10) (0, 10)).tl.1 +
        (order_points (0, 0) (10, 0) (10, 10) (0, 10)).tl.2 ≤ 0 + 0 :=
  ⟨by decide,
   (order_points_extremes (0, 0) (10, 0) (10, 10) (0, 10)).1.2 (0, 0) (by decide)⟩

/-- C6: if no detected line angle survives the (-45°, 45°) filter, or the
median of the surviving angles has absolute value below 0.5°, then
`_deskew` returns the input image unchanged together with a reported
angle of 0 (the rotation function is never applied). -/
theorem deskew_small_angle_noop {α : Type} (rotate : α → ℚ → α) (image : α)
    (thetas : List ℚ)
    (h : ((thetas.map (fun t => t - 90)).filter (fun a => -45 < a && a < 45)) = []
         ∨ |npMedian ((thetas.map (fun t => t - 90)).filter
              (fun a => -45 < a && a < 45))| < 1 / 2) :
    deskew rotate image thetas = (image, 0) := by
  simp only [deskew]
  by_cases h0 : thetas.isEmpty = true
  · rw [if_pos h0]
  · rw [if_neg h0]
    rcases h with h1 | h1
    · rw [if_pos (by rw [h1]; rfl)]
    · by_cases h2 :
        ((thetas.map (fun t => t - 90)).filter
          (fun a => -45 < a && a < 45)).isEmpty = true
      · rw [if_pos h2]
      · rw [if_neg h2, if_pos h1]

/-- Evaluation fact for the deskew witness: a single detected theta of
89.75° yields the surviving angle list [-1/4]. -/
lemma deskew_witness_angles :
    (([(359 : ℚ) / 4].map (fun t => t - 90)).filter
      (fun a => -45 < a && a < 45)) = [-1 / 4] := by
  norm_num [List.filter]

/-- Evaluation fact for the deskew witness: the median of [-1/4] is -1/4,
whose magnitude is below the 0.5° cutoff. -/
lemma deskew_witness_median :
    |npMedian [-(1 : ℚ) / 4]| < 1 / 2 := by
  have h : npMedian [-(1 : ℚ) / 4] = -1 / 4 := by
    norm_num [npMedian, sortAsc, insertAsc]
  rw [h, abs_lt]
  constructor <;> norm_num

/-- Witness for `deskew_small_angle_noop`: a single detected theta of
89.75° gives the surviving angle -0.25°, whose median magnitude 0.25 is
below the 0.5° cutoff, so deskew is the identity (the rotation function,
here the successor, is not applied). -/
theorem deskew_small_angle_noop_witness :
    ((([(359 : ℚ) / 4].map (fun t => t - 90)).filter
        (fun a => -45 < a && a < 45)) = []
      ∨ |npMedian (([(359 : ℚ) / 4].map (fun t => t - 90)).filter
          (fun a => -45 < a && a < 45))| < 1 / 2) ∧
    deskew (fun (n : Nat) _ => n + 1) 5 [(359 : ℚ) / 4] = (5, 0) :=
  ⟨Or.inr (by rw [deskew_witness_angles]; simpa using deskew_witness_median),
   deskew_small_angle_noop (fun (n : Nat) _ => n + 1) 5 [(359 : ℚ) / 4]
     (Or.inr (by rw [deskew_witness_angles]; simpa using deskew_witness_median))⟩

/-- C7: `_ensure_resolution` never decreases either pixel dimension, and
it changes (strictly enlarges) the dimensions exactly when the estimated
DPI (width / 11 inches) is strictly below the target DPI, in which case
the width strictly increases. -/
theorem ensure_resolution_monotone (t w h : ℕ) (hw : 0 < w) :
    (w ≤ (ensure_resolution t w h).1 ∧ h ≤ (ensure_resolution t w h).2) ∧
    ((w : ℚ) / 11 < (t : ℚ) ↔ ensure_resolution t w h ≠ (w, h)) ∧
    ((w : ℚ) / 11 < (t : ℚ) → w < (ensure_resolution t w h).1) := by
  have hw0 : ((w : ℚ)) ≠ 0 := Nat.cast_ne_zero.mpr hw.ne'
  by_cases hlt : (w : ℚ) / 11 < (t : ℚ)
  · have hscale : (w : ℚ) * ((t : ℚ) / ((w : ℚ) / 11)) = ((11 * t : ℕ) : ℚ) := by
      push_cast
      field_simp
      ring
    have hfst : (ensure_resolution t w h).1 = 11 * t := by
      simp only [ensure_resolution, if_pos hlt]
      rw [hscale, Int.floor_natCast, Int.toNat_natCast]
    have hwt : w < 11 * t := by
      have h11 : (w : ℚ) < 11 * (t : ℚ) := by
        have := (div_lt_iff₀ (by norm_num : (0 : ℚ) < 11)).mp hlt
        linarith
      exact_mod_cast h11
    have hsc1 : (1 : ℚ) ≤ (t : ℚ) / ((w : ℚ) / 11) := by
      rw [le_div_iff₀ (by positivity)]
      have : (w : ℚ) < 11 * t := by
        have := (div_lt_iff₀ (by norm_num : (0 : ℚ) < 11)).mp hlt
        linarith
      linarith
    have hsnd : h ≤ (ensure_resolution t w h).2 := by
      simp only [ensure_resolution, if_pos hlt]
      have hle : ((h : ℤ) : ℚ) ≤ (h : ℚ) * ((t : ℚ) / ((w : ℚ) / 11)) := by
        push_cast
        nlinarith [hsc1, (show (0 : ℚ) ≤ (h : ℚ) by positivity)]
      have hfl := Int.le_floor.mpr hle
      omega
    refine ⟨⟨?_, hsnd⟩, ⟨fun _ => ?_, fun _ => hlt⟩, fun _ => ?_⟩
    · rw [hfst]; exact hwt.le
    · intro heq
      have : (ensure_resolution t w h).1 = w := by rw [heq]
      rw [hfst] at this
      omega
    · rw [hfst]; exact hwt
  · have heq : ensure_resolution t w h = (w, h) := by
      simp [ensure_resolution, hlt]
    refine ⟨⟨?_, ?_⟩, ⟨fun hc => absurd hc hlt, fun hne => absurd heq hne⟩,
      fun hc => absurd hc hlt⟩
    · rw [heq]
    · rw [heq]

/-- Witness for `ensure_resolution_monotone`: a 1100×850 image at target
300 DPI (estimated DPI 100) is upscaled to 3300×2550. -/
theorem ensure_resolution_monotone_witness :
    0 < 1100 ∧
    ((1100 ≤ (ensure_resolution 300 1100 850).1 ∧
        850 ≤ (ensure_resolution 300 1100 850).2) ∧
      (((1100 : ℕ) : ℚ) / 11 < ((300 : ℕ) : ℚ) ↔
        ensure_resolution 300 1100 850 ≠ (1100, 850)) ∧
      (((1100 : ℕ) : ℚ) / 11 < ((300 : ℕ) : ℚ) →
        1100 < (ensure_resolution 300 1100 850).1)) :=
  ⟨by decide, ensure_resolution_monotone 300 1100 850 (by decide)⟩

/-- C8: the output-discovery probe is deterministic — run twice against
the same directory contents with the same base name, it selects the same
path (and extension) both times. -/
theorem discover_output_deterministic (stem : String)
    (listing1 listing2 : List String) (h : listing1 = listing2) :
    discover_output stem listing1 = discover_output stem listing2 := by
  rw [h]

/-- Witness for `discover_output_deterministic` on a concrete listing. -/
theorem discover_output_deterministic_witness :
    ["container.xml", "b.musicxml"] = ["container.xml", "b.musicxml"] ∧
    discover_output "img" ["container.xml", "b.musicxml"] =
      discover_output "img" ["container.xml", "b.musicxml"] :=
  ⟨rfl, discover_output_deterministic "img" _ _ rfl⟩

/-- A string of length zero is the empty string. -/
lemma length_zero_empty (s : String) (h : s.length = 0) : s = "" := by
  cases s with
  | mk data =>
    simp [String.length] at h
    simp [h]

/-- Appending to a nonempty string yields a nonempty string (used for the
truthiness of the namespaced failure messages). -/
lemma string_append_ne_empty (s t : String) (hs : s ≠ "") : s ++ t ≠ "" := by
  intro h
  apply hs
  have hlen := congrArg String.length h
  rw [String.length_append] at hlen
  simp at hlen
  exact length_zero_empty s hlen.1

/-- Executable form of "the list is non-decreasing". -/
def nonDecreasing : List Nat → Bool
  | [] => true
  | [_] => true
  | a :: b :: rest => a ≤ b && nonDecreasing (b :: rest)

/-- Task parameters requesting no transposition. -/
def noTranspose : TaskParams := ⟨none, none, none⟩

/-- A run environment in which image preprocessing fails (so OMR falls
back to the original image) but Audiveris still produces an output for
the original stem and every downstream stage succeeds. -/
def preprocessFailedEnv : StageEnv :=
  { omr := { input_stem := "img", audiveris_path := "/opt/audiveris"
             enable_preprocessing := true, preprocess_ok := false
             preprocess_error := some "cv2 failure", audiveris_exc := none
             returncode := 0, stderr := "", listing := ["img.mxl"]
             extract_ok := true }
    transpose_ok := true, transpose_error := none
    pdf_ok := true, pdf_out := some "pdf/u/j.pdf", pdf_error := none }

/-- A run environment in which preprocessing succeeds but Audiveris
leaves no discoverable output file in the output directory. -/
def noOutputEnv : StageEnv :=
  { omr := { input_stem := "img", audiveris_path := "/opt/audiveris"
             enable_preprocessing := true, preprocess_ok := true
             preprocess_error := none, audiveris_exc := none
             returncode := 1, stderr := "", listing := []
             extract_ok := true }
    transpose_ok := true, transpose_error := none
    pdf_ok := true, pdf_out := some "pdf/u/j.pdf", pdf_error := none }

/-- A run environment in which every stage succeeds (preprocessing
included; Audiveris emits an `.mxl` for the preprocessed stem). -/
def allOkEnv : StageEnv :=
  { omr := { input_stem := "img", audiveris_path := "/opt/audiveris"
             enable_preprocessing := true, preprocess_ok := true
             preprocess_error := none, audiveris_exc := none
             returncode := 0, stderr := "", listing := ["img_preprocessed.mxl"]
             extract_ok := true }
    transpose_ok := true, transpose_error := none
    pdf_ok := true, pdf_out := some "pdf/u/j.pdf", pdf_error := none }

/-- A run environment in which recognition succeeds (the MusicXML path is
persisted at the 50% checkpoint) but PDF rendering then fails. -/
def renderFailedEnv : StageEnv :=
  { omr := { input_stem := "img", audiveris_path := "/opt/audiveris"
             enable_preprocessing := true, preprocess_ok := true
             preprocess_error := none, audiveris_exc := none
             returncode := 0, stderr := "", listing := ["img_preprocessed.mxl"]
             extract_ok := true }
    transpose_ok := true, transpose_error := none
    pdf_ok := false, pdf_out := none, pdf_error := some "mscore crashed" }

/-- C1 (counterexample): in a run where `preprocess_for_omr` returns
success=False, the orchestrator still ends with status Completed,
because `process_image` falls back to the original image instead of
failing the normalization stage. -/
theorem completed_despite_preprocessing_failure :
    preprocessFailedEnv.omr.preprocess_ok = false ∧
    (process_score_task "u" "j" noTranspose preprocessFailedEnv).final.status =
      JobStatus.completed := by
  constructor
  · rfl
  · rfl

/-- C1 (amended): a run reaches status Completed only if recognition
succeeded, the transposition stage (when requested) succeeded, and
rendering succeeded; normalization success is NOT required, since a
preprocessing failure falls back to the original image. -/
theorem completed_requires_stage_successes (user job : String)
    (p : TaskParams) (env : StageEnv)
    (hc : (process_score_task user job p env).final.status = JobStatus.completed) :
    (process_image user job env.omr).success = true ∧
    (transpose_requested p = true → env.transpose_ok = true) ∧
    env.pdf_ok = true := by
  cases hs : (process_image user job env.omr).success with
  | false =>
    exfalso
    simp [process_score_task, hs, applyUpdates, update_job_status] at hc
  | true =>
    refine ⟨rfl, ?_, ?_⟩
    · intro ht
      cases htr : env.transpose_ok with
      | true => rfl
      | false =>
        exfalso
        simp [process_score_task, hs, ht, htr, applyUpdates,
          update_job_status] at hc
    · cases hp : env.pdf_ok with
      | true => rfl
      | false =>
        exfalso
        cases ht : transpose_requested p with
        | true =>
          cases htr : env.transpose_ok with
          | true =>
            simp [process_score_task, hs, ht, htr, hp, applyUpdates,
              update_job_status] at hc
          | false =>
            simp [process_score_task, hs, ht, htr, applyUpdates,
              update_job_status] at hc
        | false =>
          simp [process_score_task, hs, ht, hp, applyUpdates,
            update_job_status] at hc

/-- Witness for `completed_requires_stage_successes` on the all-stages-
succeed environment. -/
theorem completed_requires_stage_successes_witness :
    (process_score_task "u" "j" noTranspose allOkEnv).final.status =
      JobStatus.completed ∧
    ((process_image "u" "j" allOkEnv.omr).success = true ∧
      (transpose_requested noTranspose = true → allOkEnv.transpose_ok = true) ∧
      allOkEnv.pdf_ok = true) :=
  ⟨by rfl, completed_requires_stage_successes "u" "j" noTranspose allOkEnv (by rfl)⟩

set_option maxRecDepth 8192 in
/-- C2 (counterexample): in a run whose recognition stage produces no
output file, the persisted progress is 0 — not 10, the last successful
checkpoint — because the failure call to `update_job_status` omits
`progress`, which defaults to 0; and the persisted error message begins
with "Score recognition failed:", hence not with the prefix
"recognition failed:". -/
theorem recognition_failure_progress_and_message_cex :
    (process_score_task "u" "j" noTranspose noOutputEnv).final.progress ≠ 10 ∧
    (process_score_task "u" "j" noTranspose noOutputEnv).final.error_message =
      some "Score recognition failed: No MusicXML output file found. Audiveris return code: 1" ∧
    ¬ ∃ rest,
      "Score recognition failed: No MusicXML output file found. Audiveris return code: 1" =
        "recognition failed:" ++ rest := by
  refine ⟨by decide, by rfl, ?_⟩
  rintro ⟨rest, hr⟩
  have hd := congrArg (fun s => s.data.head?) hr
  simp [String.append] at hd

/-- C2 (amended): in every run whose recognition stage produces no
discoverable output file, the job ends Failed with an error message
beginning "Score recognition failed:", the persisted progress is 0 (the
failure write resets it to the Python default), the written progress
sequence is [0, 10, 0], and neither transposition variant nor rendering
is invoked. -/
theorem recognition_no_output_fails_run (user job : String) (p : TaskParams)
    (env : StageEnv)
    (hexc : env.omr.audiveris_exc = none)
    (hdisc : discover_output (processed_stem env.omr) env.omr.listing = none) :
    (process_score_task user job p env).final.status = JobStatus.failed ∧
    (process_score_task user job p env).final.progress = 0 ∧
    (∃ rest, (process_score_task user job p env).final.error_message =
      some ("Score recognition failed: " ++ rest)) ∧
    (process_score_task user job p env).trace.map (fun u => u.progress) =
      [0, 10, 0] ∧
    (process_score_task user job p env).semitone_called = false ∧
    (process_score_task user job p env).key_called = false ∧
    (process_score_task user job p env).pdf_called = false := by
  have hsucc : (process_image user job env.omr).success = false := by
    simp [process_image, hexc, hdisc]
  have htrunone : truthyStr none = false := rfl
  have htru : truthyStr (some ("Score recognition failed: "
      ++ pystr (process_image user job env.omr).error)) = true := by
    simp only [truthyStr, decide_eq_true_eq]
    exact string_append_ne_empty _ _ (by decide)
  refine ⟨?_, ?_, ⟨pystr (process_image user job env.omr).error, ?_⟩,
    ?_, ?_, ?_, ?_⟩ <;>
    simp [process_score_task, hsucc, applyUpdates, update_job_status,
      htru, htrunone]

/-- Witness for `recognition_no_output_fails_run` on the concrete
no-output environment. -/
theorem recognition_no_output_fails_run_witness :
    (noOutputEnv.omr.audiveris_exc = none ∧
      discover_output (processed_stem noOutputEnv.omr) noOutputEnv.omr.listing =
        none) ∧
    ((process_score_task "u" "j" noTranspose noOutputEnv).final.status =
        JobStatus.failed ∧
      (process_score_task "u" "j" noTranspose noOutputEnv).final.progress = 0 ∧
      (∃ rest,
        (process_score_task "u" "j" noTranspose noOutputEnv).final.error_message =
          some ("Score recognition failed: " ++ rest)) ∧
      (process_score_task "u" "j" noTranspose noOutputEnv).trace.map
          (fun u => u.progress) = [0, 10, 0] ∧
      (process_score_task "u" "j" noTranspose noOutputEnv).semitone_called = false ∧
      (process_score_task "u" "j" noTranspose noOutputEnv).key_called = false ∧
      (process_score_task "u" "j" noTranspose noOutputEnv).pdf_called = false) :=
  ⟨⟨rfl, rfl⟩,
   recognition_no_output_fails_run "u" "j" noTranspose noOutputEnv rfl rfl⟩

/-- C3 (counterexample): the progress values written by the
recognition-failure run are [0, 10, 0], which is not non-decreasing —
the final failure write resets progress to 0. -/
theorem progress_sequence_decreases_on_failure :
    (process_score_task "u" "j" noTranspose noOutputEnv).trace.map
      (fun u => u.progress) = [0, 10, 0] ∧
    nonDecreasing ((process_score_task "u" "j" noTranspose noOutputEnv).trace.map
      (fun u => u.progress)) = false := by
  constructor
  · rfl
  · rfl

/-- C3 (amended): every progress value written by a run lies in 0–100
(0 is automatic for ℕ), and on runs that end Completed the sequence of
written progress values is non-decreasing; on failure runs the final
write resets progress to 0, so the sequence can decrease. -/
theorem progress_bounded_and_success_nondecreasing (user job : String)
    (p : TaskParams) (env : StageEnv) :
    (∀ v ∈ (process_score_task user job p env).trace.map (fun u => u.progress),
      v ≤ 100) ∧
    ((process_score_task user job p env).final.status = JobStatus.completed →
      nonDecreasing ((process_score_task user job p env).trace.map
        (fun u => u.progress)) = true) := by
  cases hs : (process_image user job env.omr).success <;>
    cases ht : transpose_requested p <;>
      cases htr : env.transpose_ok <;>
        cases hp : env.pdf_ok <;>
          constructor <;>
            simp [process_score_task, hs, ht, htr, hp, applyUpdates,
              update_job_status, nonDecreasing]

/-- Witness for `progress_bounded_and_success_nondecreasing` on the
all-stages-succeed environment: the run completes and its progress
sequence is non-decreasing. -/
theorem progress_bounded_and_success_nondecreasing_witness :
    (process_score_task "u" "j" noTranspose allOkEnv).final.status =
      JobStatus.completed ∧
    nonDecreasing ((process_score_task "u" "j" noTranspose allOkEnv).trace.map
      (fun u => u.progress)) = true :=
  ⟨by rfl,
   (progress_bounded_and_success_nondecreasing "u" "j" noTranspose allOkEnv).2
     (by rfl)⟩

/-- C9 (counterexample): in a run where preprocessing created the scratch
file and recognition then fails (no discoverable output), the scratch
file is NOT removed — the cleanup block sits on the success path only,
so failure paths skip it. -/
theorem scratch_file_survives_failed_stage :
    (process_image "u" "j" noOutputEnv.omr).success = false ∧
    scratch_created noOutputEnv.omr = true ∧
    (process_image "u" "j" noOutputEnv.omr).scratch_remains = true := by
  refine ⟨?_, ?_, ?_⟩ <;> rfl

/-- C9 (amended): the preprocessed scratch file is removed by the end of
`process_image` on the success path; on every failure path (timeout,
engine not found, other exception, or no discoverable output) the
scratch file, if it was created, is left in place. -/
theorem scratch_cleanup_success_path_only (user job : String) (env : OmrEnv) :
    ((process_image user job env).success = true →
      (process_image user job env).scratch_remains = false) ∧
    ((process_image user job env).success = false →
      (process_image user job env).scratch_remains = scratch_created env) := by
  cases hexc : env.audiveris_exc with
  | none =>
    cases hdisc : discover_output (processed_stem env) env.listing with
    | none => constructor <;> simp [process_image, hexc, hdisc]
    | some v => constructor <;> simp [process_image, hexc, hdisc]
  | some e =>
    cases e <;> (constructor <;> simp [process_image, hexc])

/-- Witness for `scratch_cleanup_success_path_only` on the
all-stages-succeed environment, where the scratch file was created and
the stage succeeds, so the scratch file is gone afterwards. -/
theorem scratch_cleanup_success_path_only_witness :
    (process_image "u" "j" allOkEnv.omr).success = true ∧
    (process_image "u" "j" allOkEnv.omr).scratch_remains = false :=
  ⟨by rfl, (scratch_cleanup_success_path_only "u" "j" allOkEnv.omr).1 (by rfl)⟩

/-- C5 (code evaluated at the failing input): after a run whose rendering
stage failed (MusicXML persisted at the 50% checkpoint, then Failed),
the job response still reports the MusicXML artifact as available, and
the MusicXML download endpoint — which, unlike the PDF endpoint,
performs no job-status check — serves the file; only the PDF download is
refused with "Job is not completed". -/
theorem failed_job_still_exposes_musicxml :
    (process_score_task "u" "j" noTranspose renderFailedEnv).final.status =
      JobStatus.failed ∧
    (job_to_response
      (process_score_task "u" "j" noTranspose renderFailedEnv).final).has_musicxml =
      true ∧
    download_musicxml (fun _ => true)
      (process_score_task "u" "j" noTranspose renderFailedEnv).final =
      DownloadResult.served "musicxml/u/j.musicxml" ∧
    download_pdf (fun _ => true)
      (process_score_task "u" "j" noTranspose renderFailedEnv).final =
      DownloadResult.rejected 400 "Job is not completed" := by
  refine ⟨?_, ?_, ?_, ?_⟩ <;> rfl

/-- C10: a job with a present transpose offset of 0 and no key pair
passes the boundary validation (0 lies in [-12, 12]), yet the
orchestrator never invokes either transposition variant, because Python
truthiness treats the 0 offset like an absent one; and when a 0 offset
is combined with a key pair, the semitone variant is never invoked while
the key-based variant is invoked whenever recognition succeeds. -/
theorem zero_offset_transposition_selection :
    create_job_accepts (some 0) none none = true ∧
    (∀ user job : String, ∀ env : StageEnv,
      (process_score_task user job ⟨some 0, none, none⟩ env).semitone_called =
        false ∧
      (process_score_task user job ⟨some 0, none, none⟩ env).key_called = false) ∧
    (∀ user job : String, ∀ env : StageEnv,
      (process_score_task user job
        ⟨some 0, some "C", some "G"⟩ env).semitone_called = false) ∧
    (∀ user job : String, ∀ env : StageEnv,
      (process_image user job env.omr).success = true →
      (process_score_task user job ⟨some 0, some "C", some "G"⟩ env).key_called =
        true) := by
  refine ⟨by decide, ?_, ?_, ?_⟩
  · intro user job env
    cases hs : (process_image user job env.omr).success <;>
      cases hp : env.pdf_ok <;>
        constructor <;>
          simp [process_score_task, hs, hp, transpose_requested, truthyInt,
            truthyStr]
  · intro user job env
    cases hs : (process_image user job env.omr).success <;>
      cases htr : env.transpose_ok <;>
        cases hp : env.pdf_ok <;>
          simp [process_score_task, hs, htr, hp, transpose_requested,
            truthyInt, truthyStr]
  · intro user job env hs
    cases htr : env.transpose_ok <;>
      cases hp : env.pdf_ok <;>
        simp [process_score_task, hs, htr, hp, transpose_requested,
          truthyInt, truthyStr]

/-- Witness for `zero_offset_transposition_selection`: with a 0 offset
plus the key pair C→G and a successful recognition, the key-based
variant is the one invoked. -/
theorem zero_offset_transposition_selection_witness :
    (process_image "u" "j" allOkEnv.omr).success = true ∧
    (process_score_task "u" "j" ⟨some 0, some "C", some "G"⟩ allOkEnv).key_called =
      true :=
  ⟨by rfl,
   zero_offset_transposition_selection.2.2.2 "u" "j" allOkEnv (by rfl)⟩

end ScoreScan
